import Mathlib

/-!
Shallow embedding of `wasm-logger` (src/lib.rs): a console logger for wasm
applications bridging the `log` crate facade to the browser console.

Modelling choices:
* Rust `String` / `&str` values are Lean `String`s.
* The `log` crate's `Level` and `LevelFilter` enums, and its `Display`
  rendering of levels (`"TRACE"`, ..., `"ERROR"`), are embedded directly.
* The browser console is modelled observationally: a `ConsoleCall` records
  which severity-keyed channel was invoked and the four arguments passed
  (`console::debug_4` / `log_4` / `info_4` / `warn_4` / `error_4`).
  `WasmLogger.log` returns `Option ConsoleCall`: `none` means no console
  call was performed.
* chrono's calendar arithmetic is not re-implemented.  The result of
  `NaiveDateTime::from_timestamp_millis(js_sys::Date::now() as i64)` is an
  explicit parameter `nowConv : Option Int` (`none` = out-of-range instant),
  and the rendering of a successfully converted instant under a
  `TimestampFormat` is an explicit function parameter `renderTS`.  The
  logger's own handling of these outcomes (the `.map`/`.flatten`/`.map_or`
  chain) is embedded faithfully.
-/

/-- `log::Level`: Trace < Debug < Info < Warn < Error. -/
inductive Level where
  | Trace
  | Debug
  | Info
  | Warn
  | Error
deriving DecidableEq, Repr

/-- `log::LevelFilter` (target of `Level::to_level_filter`). -/
inductive LevelFilter where
  | Off
  | Error
  | Warn
  | Info
  | Debug
  | Trace
deriving DecidableEq, Repr

/-- `log::Level::to_level_filter`. -/
def Level.toLevelFilter : Level → LevelFilter
  | .Trace => .Trace
  | .Debug => .Debug
  | .Info => .Info
  | .Warn => .Warn
  | .Error => .Error

/-- The `Display` rendering of `log::Level` (used by `record.level()` inside
`format!`): upper-case level names. -/
def Level.toStr : Level → String
  | .Trace => "TRACE"
  | .Debug => "DEBUG"
  | .Info => "INFO"
  | .Warn => "WARN"
  | .Error => "ERROR"

/-- `TimestampFormat` from src/lib.rs. -/
inductive TimestampFormat where
  | Rfc2822
  | Rfc3339
  | Custom (pattern : String)
deriving DecidableEq, Repr

/-- `MessageLocation` from src/lib.rs. -/
inductive MessageLocation where
  | SameLine
  | NewLine
deriving DecidableEq, Repr

/-- `Config` from src/lib.rs (Rust field `module_prefix` is `modulePrefix`,
`timestamp_format` is `timestampFormat`, `message_location` is
`messageLocation`). -/
structure Config where
  level : Level
  modulePrefix : Option String
  timestampFormat : Option TimestampFormat
  messageLocation : MessageLocation
deriving DecidableEq, Repr

/-- `Config::default`. -/
def Config.default : Config :=
  { level := .Debug
    modulePrefix := none
    messageLocation := .SameLine
    timestampFormat := none }

/-- `Config::new`. -/
def Config.new (level : Level) : Config :=
  { level := level
    modulePrefix := none
    messageLocation := .SameLine
    timestampFormat := none }

/-- Builder `Config::timestamp_format`. -/
def Config.withTimestampFormat (c : Config) (tsFmt : TimestampFormat) : Config :=
  { c with timestampFormat := some tsFmt }

/-- Builder `Config::module_prefix` (replaces any previous value). -/
def Config.withModulePrefix (c : Config) (p : String) : Config :=
  { c with modulePrefix := some p }

/-- Builder `Config::message_on_new_line`. -/
def Config.messageOnNewLine (c : Config) : Config :=
  { c with messageLocation := .NewLine }

/-- `Style` from src/lib.rs. -/
structure Style where
  lvl_trace : String
  lvl_debug : String
  lvl_info : String
  lvl_warn : String
  lvl_error : String
  tgt : String
  args : String
deriving DecidableEq, Repr

/-- `Style::new` (the `format!("{} gray;", base)` calls concatenate). -/
def Style.new : Style :=
  let base := "color: white; padding: 0 3px; background:"
  { lvl_trace := base ++ " gray;"
    lvl_debug := base ++ " blue;"
    lvl_info := base ++ " green;"
    lvl_warn := base ++ " orange;"
    lvl_error := base ++ " darkred;"
    tgt := "font-weight: bold; color: inherit"
    args := "background: inherit; color: inherit" }

/-- The part of `log::Metadata` the logger reads: level and target. -/
structure Metadata where
  level : Level
  target : String
deriving DecidableEq, Repr

/-- A `log::Record`: `args` is the `Display` rendering of `record.args()`;
`line` is the `u32` source line. -/
structure Record where
  level : Level
  target : String
  file : Option String
  line : Option Nat
  args : String
deriving DecidableEq, Repr

/-- `record.metadata()`. -/
def Record.metadata (r : Record) : Metadata :=
  { level := r.level, target := r.target }

/-- `WasmLogger` from src/lib.rs. -/
structure WasmLogger where
  config : Config
  style : Style
deriving DecidableEq, Repr

/-- `<WasmLogger as Log>::enabled`: with a configured module-path p it is
`metadata.target().starts_with(p)` — Rust `str::starts_with` for a `&str`
argument is a literal, case-sensitive prefix test, embedded as
`List.isPrefixOf` on the character data — otherwise `true`. -/
def WasmLogger.enabled (l : WasmLogger) (m : Metadata) : Bool :=
  match l.config.modulePrefix with
  | some p => p.data.isPrefixOf m.target.data
  | none => true

/-- The `message_separator` binding in `WasmLogger::log`. -/
def messageSeparator : MessageLocation → String
  | .NewLine => "\n"
  | .SameLine => " "

/-- The `timestamp` binding in `WasmLogger::log`:
`config.timestamp_format.as_ref().map(|fmt| conv.map(|dt| render)).flatten()
.map_or("".to_string(), |s| format!("{s} "))` where `conv` is the chrono
conversion of `js_sys::Date::now()` (parameter `nowConv`) and the chrono
rendering is parameter `renderTS`. -/
def timestampField (renderTS : TimestampFormat → Int → String)
    (tsFmt : Option TimestampFormat) (nowConv : Option Int) : String :=
  match (tsFmt.map (fun fmt => nowConv.map (fun dt => renderTS fmt dt))).join with
  | none => ""
  | some s => s ++ " "

/-- `record.file().unwrap_or_else(|| record.target())`. -/
def locationField (file : Option String) (target : String) : String :=
  file.getD target

/-- `record.line().map_or_else(|| "[Unknown]".to_string(), |line| line.to_string())`. -/
def lineField : Option Nat → String
  | none => "[Unknown]"
  | some n => toString n

/-- The `format!` call in `WasmLogger::log`: the format string is
`%c`, `{}` (level), `%c `, `{}` (timestamp), `{}` (location), `:`,
`{}` (line), `%c`, `{}` (separator), `{}` (args). -/
def formatText (renderTS : TimestampFormat → Int → String)
    (cfg : Config) (r : Record) (nowConv : Option Int) : String :=
  "%c" ++ r.level.toStr ++ "%c " ++
    timestampField renderTS cfg.timestampFormat nowConv ++
    locationField r.file r.target ++ ":" ++ lineField r.line ++
    "%c" ++ messageSeparator cfg.messageLocation ++ r.args

/-- The five severity-keyed console channels
(`console::debug_4`, `log_4`, `info_4`, `warn_4`, `error_4`). -/
inductive Channel where
  | debugCh
  | logCh
  | infoCh
  | warnCh
  | errorCh
deriving DecidableEq, Repr

/-- One observed styled console call: channel plus the four arguments
`(text, severity-style, tgt-style, args-style)`. -/
structure ConsoleCall where
  channel : Channel
  text : String
  style1 : String
  style2 : String
  style3 : String
deriving DecidableEq, Repr

/-- The five-way `match record.level()` dispatch in `WasmLogger::log`. -/
def dispatch (style : Style) (lvl : Level) (s : String) : ConsoleCall :=
  match lvl with
  | .Trace => { channel := .debugCh, text := s, style1 := style.lvl_trace, style2 := style.tgt, style3 := style.args }
  | .Debug => { channel := .logCh, text := s, style1 := style.lvl_debug, style2 := style.tgt, style3 := style.args }
  | .Info => { channel := .infoCh, text := s, style1 := style.lvl_info, style2 := style.tgt, style3 := style.args }
  | .Warn => { channel := .warnCh, text := s, style1 := style.lvl_warn, style2 := style.tgt, style3 := style.args }
  | .Error => { channel := .errorCh, text := s, style1 := style.lvl_error, style2 := style.tgt, style3 := style.args }

/-- `<WasmLogger as Log>::log`: guarded by `self.enabled(record.metadata())`;
when disabled no console call happens (`none`). -/
def WasmLogger.log (renderTS : TimestampFormat → Int → String)
    (l : WasmLogger) (r : Record) (nowConv : Option Int) : Option ConsoleCall :=
  if l.enabled r.metadata then
    some (dispatch l.style r.level (formatText renderTS l.config r nowConv))
  else
    none

/-- The process-wide state owned by the `log` crate that `init` touches:
whether a logger is installed (`log::set_boxed_logger` succeeds exactly when
none is) and the global max level (`log::set_max_level`). -/
structure LogGlobal where
  installed : Bool
  maxLevel : LevelFilter
deriving DecidableEq, Repr

/-- The `Display` message of `log::SetLoggerError`. -/
def setLoggerErrorMsg : String :=
  "attempted to set a logger after the logging system was already initialized"

/-- `init` from src/lib.rs as a transition on the `log`-crate global state.
On `Ok` it calls `log::set_max_level(max_level.to_level_filter())`; on `Err e`
it calls `console::error_1` with `e.to_string()` — returned as the second
component (`none` = no error printed).  It never panics or aborts: it is a
total function returning in both branches. -/
def init (config : Config) (g : LogGlobal) : LogGlobal × Option String :=
  let max_level := config.level
  if g.installed then
    (g, some setLoggerErrorMsg)
  else
    ({ installed := true, maxLevel := max_level.toLevelFilter }, none)

/-- Count of occurrences of a character in a string. -/
def countChar (c : Char) (s : String) : Nat :=
  s.data.count c

theorem countChar_append (c : Char) (s t : String) :
    countChar c (s ++ t) = countChar c s + countChar c t := by
  simp [countChar, String.data_append, List.count_append]

theorem percent_notin_levelStr (lvl : Level) : '%' ∉ lvl.toStr.data := by
  cases lvl <;> decide

theorem newline_notin_levelStr (lvl : Level) : '\n' ∉ lvl.toStr.data := by
  cases lvl <;> decide

/-- Spec-side severity→style mapping, to compare against the dispatch. -/
def severityStyle (st : Style) : Level → String
  | .Trace => st.lvl_trace
  | .Debug => st.lvl_debug
  | .Info => st.lvl_info
  | .Warn => st.lvl_warn
  | .Error => st.lvl_error

/-- Spec-side severity→channel mapping, to compare against the dispatch. -/
def channelOf : Level → Channel
  | .Trace => .debugCh
  | .Debug => .logCh
  | .Info => .infoCh
  | .Warn => .warnCh
  | .Error => .errorCh

/-- A concrete timestamp renderer for closed evaluations (the scenarios that
use it configure no timestamp, so its value never shows up). -/
def rTS0 : TimestampFormat → Int → String := fun _ _ => ""

/-- Scenario 1 logger: `Config::new(Level::Info)` (no module-path filter, no
timestamp, message on the same line). -/
def logger1 : WasmLogger :=
  { config := Config.new .Info, style := Style.new }

/-- Scenario 1 record. -/
def rec1 : Record :=
  { level := .Warn, target := "app::net", file := some "net.rs",
    line := some 42, args := "conn lost" }

/-- The console call scenario 1 actually produces. -/
def call1 : ConsoleCall :=
  { channel := .warnCh
    text := "%cWARN%c net.rs:42%c conn lost"
    style1 := Style.new.lvl_warn
    style2 := Style.new.tgt
    style3 := Style.new.args }

/-- Scenario 4 config: message on a new line. -/
def cfgNL : Config := Config.messageOnNewLine (Config.new .Info)

/-- Scenario 4 logger. -/
def loggerNL : WasmLogger := { config := cfgNL, style := Style.new }

/-- Scenario 4 record. -/
def recNL : Record :=
  { level := .Info, target := "t", file := some "f", line := some 1, args := "msg" }

/-- Scenario 3 logger: module-path filter `"app::net"`. -/
def loggerP : WasmLogger :=
  { config := Config.withModulePrefix (Config.new .Info) "app::net", style := Style.new }

/-- Scenario 3 record (target outside the filter). -/
def recUi : Record :=
  { level := .Warn, target := "app::ui", file := none, line := none, args := "m" }

/-- Scenario 3 record with a different severity only. -/
def recUi2 : Record :=
  { level := .Debug, target := "app::ui", file := none, line := none, args := "m" }

/-- A record whose message itself contains the marker sequence. -/
def recPct : Record :=
  { level := .Warn, target := "app::net", file := some "net.rs",
    line := some 42, args := "100%cool" }

theorem dispatch_text (st : Style) (lvl : Level) (s : String) :
    (dispatch st lvl s).text = s := by
  cases lvl <;> rfl

theorem dispatch_style1 (st : Style) (lvl : Level) (s : String) :
    (dispatch st lvl s).style1 = severityStyle st lvl := by
  cases lvl <;> rfl

theorem dispatch_style2 (st : Style) (lvl : Level) (s : String) :
    (dispatch st lvl s).style2 = st.tgt := by
  cases lvl <;> rfl

theorem dispatch_style3 (st : Style) (lvl : Level) (s : String) :
    (dispatch st lvl s).style3 = st.args := by
  cases lvl <;> rfl

theorem dispatch_channel (st : Style) (lvl : Level) (s : String) :
    (dispatch st lvl s).channel = channelOf lvl := by
  cases lvl <;> rfl

theorem countChar_eq_zero (c : Char) (s : String) (h : c ∉ s.data) :
    countChar c s = 0 :=
  List.count_eq_zero.mpr h

/-- C1: FALSE as stated.  With Config{level=Info, no module-path filter, no
timestamp, SameLine} and Record{Warn, "app::net", file="net.rs", line=42,
"conn lost"}, the logger does emit on the warn channel, but the emitted text
is not the spec's "%cWARN net.rs:42 %cconn lost%c": the second and third
style markers sit at different positions. -/
theorem C1_counterexample :
    (WasmLogger.log rTS0 logger1 rec1 (some 0)).map ConsoleCall.text ≠
      some "%cWARN net.rs:42 %cconn lost%c" := by
  decide

/-- C1 (amended): for that config and record, log emits on the warn channel
exactly the text "%cWARN%c net.rs:42%c conn lost" (level marker, level,
tgt marker, space, location, args marker, space, message) together with the
3 styles [warn-style, tgt-style, args-style]. -/
theorem C1_amended_scenario1 :
    WasmLogger.log rTS0 logger1 rec1 (some 0) = some call1 := by
  decide

theorem countChar_percent_formatText
    (renderTS : TimestampFormat → Int → String) (cfg : Config) (r : Record)
    (nowConv : Option Int)
    (hts : '%' ∉ (timestampField renderTS cfg.timestampFormat nowConv).data)
    (hloc : '%' ∉ (locationField r.file r.target).data)
    (hline : '%' ∉ (lineField r.line).data)
    (hargs : '%' ∉ r.args.data) :
    countChar '%' (formatText renderTS cfg r nowConv) = 3 := by
  have e1 : countChar '%' "%c" = 1 := by decide
  have e2 : countChar '%' "%c " = 1 := by decide
  have e3 : countChar '%' ":" = 0 := by decide
  have e4 : countChar '%' (messageSeparator cfg.messageLocation) = 0 := by
    cases h : cfg.messageLocation <;> decide
  simp [formatText, countChar_append, e1, e2, e3, e4,
    countChar_eq_zero _ _ hts, countChar_eq_zero _ _ hloc,
    countChar_eq_zero _ _ hline, countChar_eq_zero _ _ hargs,
    countChar_eq_zero _ _ (percent_notin_levelStr r.level)]

/-- C2: FALSE as stated for the marker count.  The console call always gets
exactly 3 style slots, but nothing escapes '%' in the interpolated fields: a
record with message "100%cool" is emitted with a text containing 4
'%'-markers, so the text does not always contain exactly 3. -/
theorem C2_counterexample :
    (WasmLogger.log rTS0 logger1 recPct (some 0)).map ConsoleCall.text =
      some "%cWARN%c net.rs:42%c 100%cool" ∧
    countChar '%' "%cWARN%c net.rs:42%c 100%cool" = 4 := by
  refine ⟨by decide, by decide⟩

/-- C2 (amended): for every emitted record whose interpolated fields
(rendered timestamp, location, rendered line, message) contain no '%'
character, the console call receives exactly 3 style slots in the order
[severity-style, tgt-style, args-style], and the formatted text contains
exactly 3 style markers — never 2, never 4 — the text being the fixed
three-marker skeleton with the fields interpolated, so the markers'
left-to-right order matches the slot order, for every combination of
present or absent timestamp, file and line. -/
theorem C2_three_style_slots
    (renderTS : TimestampFormat → Int → String) (l : WasmLogger) (r : Record)
    (nowConv : Option Int) (c : ConsoleCall)
    (hts : '%' ∉ (timestampField renderTS l.config.timestampFormat nowConv).data)
    (hloc : '%' ∉ (locationField r.file r.target).data)
    (hline : '%' ∉ (lineField r.line).data)
    (hargs : '%' ∉ r.args.data)
    (hcall : WasmLogger.log renderTS l r nowConv = some c) :
    c.style1 = severityStyle l.style r.level ∧
    c.style2 = l.style.tgt ∧
    c.style3 = l.style.args ∧
    c.text = formatText renderTS l.config r nowConv ∧
    countChar '%' c.text = 3 := by
  unfold WasmLogger.log at hcall
  split at hcall
  · injection hcall with hc
    subst hc
    exact ⟨dispatch_style1 _ _ _, dispatch_style2 _ _ _, dispatch_style3 _ _ _,
      dispatch_text _ _ _, by
        rw [dispatch_text]
        exact countChar_percent_formatText renderTS l.config r nowConv hts hloc hline hargs⟩
  · exact Option.noConfusion hcall

/-- C2 witness: scenario-1 instantiation of C2_three_style_slots. -/
theorem C2_three_style_slots_witness :
    call1.style1 = severityStyle logger1.style rec1.level ∧
    call1.style2 = logger1.style.tgt ∧
    call1.style3 = logger1.style.args ∧
    call1.text = formatText rTS0 logger1.config rec1 (some 0) ∧
    countChar '%' call1.text = 3 :=
  C2_three_style_slots rTS0 logger1 rec1 (some 0) call1
    (by decide) (by decide) (by decide) (by decide) (by decide)

/-- C3: enabled returns true iff no module-path filter is configured, or the
record's module path starts with the configured string as a literal,
case-sensitive character prefix (position 0); in particular with no filter it
is true for every path, including the empty one. -/
theorem C3_enabled_iff (l : WasmLogger) (m : Metadata) :
    l.enabled m = true ↔
      l.config.modulePrefix = none ∨
        ∃ p, l.config.modulePrefix = some p ∧ p.data <+: m.target.data := by
  cases hmp : l.config.modulePrefix with
  | none => simp [WasmLogger.enabled, hmp]
  | some p => simp [WasmLogger.enabled, hmp, List.isPrefixOf_iff_prefix]

/-- C4: the rendered timestamp field is the formatted time plus exactly one
trailing space when a format is configured and the instant converts; the
empty string when conversion fails; and the empty string when no format is
configured.  It is a total function: it never fails. -/
theorem C4_timestamp_field (renderTS : TimestampFormat → Int → String)
    (tsFmt : TimestampFormat) :
    (∀ dt : Int,
      timestampField renderTS (some tsFmt) (some dt) = renderTS tsFmt dt ++ " ") ∧
    timestampField renderTS (some tsFmt) none = "" ∧
    (∀ nowConv : Option Int, timestampField renderTS none nowConv = "") := by
  refine ⟨fun dt => rfl, rfl, fun nowConv => ?_⟩
  cases nowConv <;> rfl

/-- C5: every emitted record goes to exactly the one console channel keyed by
its severity (Trace→debug, Debug→log, Info→info, Warn→warn, Error→error),
with the formatted text first and the three style slots as the three
following arguments. -/
theorem C5_dispatch_channels (renderTS : TimestampFormat → Int → String)
    (l : WasmLogger) (r : Record) (nowConv : Option Int) (c : ConsoleCall)
    (hcall : WasmLogger.log renderTS l r nowConv = some c) :
    c.channel = channelOf r.level ∧
    c.text = formatText renderTS l.config r nowConv ∧
    c.style1 = severityStyle l.style r.level ∧
    c.style2 = l.style.tgt ∧
    c.style3 = l.style.args ∧
    channelOf .Trace = .debugCh ∧ channelOf .Debug = .logCh ∧
    channelOf .Info = .infoCh ∧ channelOf .Warn = .warnCh ∧
    channelOf .Error = .errorCh := by
  unfold WasmLogger.log at hcall
  split at hcall
  · injection hcall with hc
    subst hc
    exact ⟨dispatch_channel _ _ _, dispatch_text _ _ _, dispatch_style1 _ _ _,
      dispatch_style2 _ _ _, dispatch_style3 _ _ _, rfl, rfl, rfl, rfl, rfl⟩
  · exact Option.noConfusion hcall

/-- C5 witness: scenario-1 instantiation of C5_dispatch_channels. -/
theorem C5_dispatch_channels_witness :
    call1.channel = channelOf rec1.level ∧
    call1.text = formatText rTS0 logger1.config rec1 (some 0) ∧
    call1.style1 = severityStyle logger1.style rec1.level ∧
    call1.style2 = logger1.style.tgt ∧
    call1.style3 = logger1.style.args ∧
    channelOf .Trace = .debugCh ∧ channelOf .Debug = .logCh ∧
    channelOf .Info = .infoCh ∧ channelOf .Warn = .warnCh ∧
    channelOf .Error = .errorCh :=
  C5_dispatch_channels rTS0 logger1 rec1 (some 0) call1 (by decide)

/-- C6: FALSE as stated.  With NewLine placement the text contains exactly
one newline, but it is not positioned immediately after the location field:
for the record {Info, "t", file="f", line=1, "msg"} the text is
"%cINFO%c f:1%c\nmsg" — location "f:1" is followed by the third style
marker, and the newline follows that marker, so "f:1\n" occurs nowhere. -/
theorem C6_counterexample :
    WasmLogger.log rTS0 loggerNL recNL (some 0) =
      some (dispatch Style.new .Info "%cINFO%c f:1%c\nmsg") ∧
    countChar '\n' "%cINFO%c f:1%c\nmsg" = 1 ∧
    ¬ ("f:1\n".data <:+: "%cINFO%c f:1%c\nmsg".data) := by
  refine ⟨by decide, by decide, by decide⟩

/-- C6 (amended): when message_location is NewLine, for any record whose
rendered fields contain no newline, the formatted text contains exactly one
newline character, positioned immediately after the args-style marker (the
third style marker, which itself directly follows the location field) and
before the message. -/
theorem C6_amended_newline_position
    (renderTS : TimestampFormat → Int → String) (l : WasmLogger) (r : Record)
    (nowConv : Option Int)
    (hNL : l.config.messageLocation = .NewLine)
    (hts : '\n' ∉ (timestampField renderTS l.config.timestampFormat nowConv).data)
    (hloc : '\n' ∉ (locationField r.file r.target).data)
    (hline : '\n' ∉ (lineField r.line).data)
    (hargs : '\n' ∉ r.args.data) :
    formatText renderTS l.config r nowConv =
      "%c" ++ r.level.toStr ++ "%c " ++
        timestampField renderTS l.config.timestampFormat nowConv ++
        locationField r.file r.target ++ ":" ++ lineField r.line ++
        "%c" ++ "\n" ++ r.args ∧
    countChar '\n' (formatText renderTS l.config r nowConv) = 1 := by
  constructor
  · simp [formatText, hNL, messageSeparator]
  · have e1 : countChar '\n' "%c" = 0 := by decide
    have e2 : countChar '\n' "%c " = 0 := by decide
    have e3 : countChar '\n' ":" = 0 := by decide
    have e4 : countChar '\n' (messageSeparator l.config.messageLocation) = 1 := by
      rw [hNL]; decide
    simp [formatText, countChar_append, e1, e2, e3, e4,
      countChar_eq_zero _ _ hts, countChar_eq_zero _ _ hloc,
      countChar_eq_zero _ _ hline, countChar_eq_zero _ _ hargs,
      countChar_eq_zero _ _ (newline_notin_levelStr r.level)]

/-- C6 witness: scenario-4 instantiation of C6_amended_newline_position. -/
theorem C6_amended_newline_position_witness :
    formatText rTS0 loggerNL.config recNL (some 0) =
      "%c" ++ recNL.level.toStr ++ "%c " ++
        timestampField rTS0 loggerNL.config.timestampFormat (some 0) ++
        locationField recNL.file recNL.target ++ ":" ++ lineField recNL.line ++
        "%c" ++ "\n" ++ recNL.args ∧
    countChar '\n' (formatText rTS0 loggerNL.config recNL (some 0)) = 1 :=
  C6_amended_newline_position rTS0 loggerNL recNL (some 0) rfl
    (by decide) (by decide) (by decide) (by decide)

/-- C7: the message separator is byte-exactly a single newline for NewLine
and a single space for SameLine, and the formatted text places it between
the location field (after the intervening args-style marker) and the
message. -/
theorem C7_separator_bytes (renderTS : TimestampFormat → Int → String)
    (cfg : Config) (r : Record) (nowConv : Option Int) :
    messageSeparator .NewLine = "\n" ∧
    messageSeparator .SameLine = " " ∧
    formatText renderTS cfg r nowConv =
      "%c" ++ r.level.toStr ++ "%c " ++
        timestampField renderTS cfg.timestampFormat nowConv ++
        locationField r.file r.target ++ ":" ++ lineField r.line ++
        "%c" ++ messageSeparator cfg.messageLocation ++ r.args :=
  ⟨rfl, rfl, rfl⟩

/-- C8: in the formatted text the location field is the record's file if
present, else its module/target path, followed by a colon and then the line
number if present, else the literal "[Unknown]". -/
theorem C8_location_and_line (renderTS : TimestampFormat → Int → String)
    (cfg : Config) (r : Record) (nowConv : Option Int) (tgt : String) (n : Nat) :
    formatText renderTS cfg r nowConv =
      ("%c" ++ r.level.toStr ++ "%c " ++
          timestampField renderTS cfg.timestampFormat nowConv) ++
        (locationField r.file r.target ++ ":" ++ lineField r.line) ++
        ("%c" ++ messageSeparator cfg.messageLocation ++ r.args) ∧
    locationField none tgt = tgt ∧
    (∀ f : String, locationField (some f) tgt = f) ∧
    lineField none = "[Unknown]" ∧
    lineField (some n) = toString n := by
  refine ⟨?_, rfl, fun f => rfl, rfl, rfl⟩
  simp [formatText, String.append_assoc]

/-- C9: the emit/skip decision of log is independent of the record's
severity — two records differing only in severity are either both emitted or
both skipped — and when enabled is false log performs no console call. -/
theorem C9_severity_independent (renderTS : TimestampFormat → Int → String)
    (l : WasmLogger) (r1 r2 : Record) (nowConv : Option Int)
    (htgt : r1.target = r2.target) (hfile : r1.file = r2.file)
    (hline : r1.line = r2.line) (hargs : r1.args = r2.args) :
    (WasmLogger.log renderTS l r1 nowConv).isSome =
      (WasmLogger.log renderTS l r2 nowConv).isSome ∧
    (l.enabled r1.metadata = false → WasmLogger.log renderTS l r1 nowConv = none) := by
  have hen : l.enabled r1.metadata = l.enabled r2.metadata := by
    simp [WasmLogger.enabled, Record.metadata, htgt]
  constructor
  · unfold WasmLogger.log
    rw [hen]
    cases h : l.enabled r2.metadata <;> simp [h]
  · intro h
    simp [WasmLogger.log, h]

/-- C9 witness: scenario-3 instantiation (module-path filter "app::net",
records targeting "app::ui" at severities Warn and Debug — both skipped). -/
theorem C9_severity_independent_witness :
    (WasmLogger.log rTS0 loggerP recUi (some 0)).isSome =
      (WasmLogger.log rTS0 loggerP recUi2 (some 0)).isSome ∧
    (loggerP.enabled recUi.metadata = false →
      WasmLogger.log rTS0 loggerP recUi (some 0) = none) :=
  C9_severity_independent rTS0 loggerP recUi recUi2 (some 0) rfl rfl rfl rfl

/-- C10: init either succeeds — installing the logger and setting the global
max level from config.level — or, when a logger is already installed, prints
the SetLoggerError diagnostic on the console error channel and returns with
the global state (including the max level) unchanged. -/
theorem C10_init_transition (config : Config) (g : LogGlobal) :
    (g.installed = false →
      init config g =
        ({ installed := true, maxLevel := config.level.toLevelFilter }, none)) ∧
    (g.installed = true →
      init config g = (g, some setLoggerErrorMsg)) := by
  constructor <;> intro h <;> simp [init, h]

/-- C10 witness: both branches of C10_init_transition at Level.Info. -/
theorem C10_init_transition_witness :
    init (Config.new .Info) { installed := false, maxLevel := .Off } =
      ({ installed := true, maxLevel := (Config.new .Info).level.toLevelFilter },
        none) ∧
    init (Config.new .Info) { installed := true, maxLevel := .Warn } =
      ({ installed := true, maxLevel := .Warn }, some setLoggerErrorMsg) :=
  ⟨(C10_init_transition (Config.new .Info)
      { installed := false, maxLevel := .Off }).1 rfl,
   (C10_init_transition (Config.new .Info)
      { installed := true, maxLevel := .Warn }).2 rfl⟩
